import Mathlib

/-!
Shallow embedding of `descwl/render.py` from the WeakLensingDeblending
repository.

Pixel values, fluxes and angular quantities are modelled as rationals.
The collaborators that the source treats as opaque services (the galaxy
model transform `Galaxy.get_transformed_model`, `galsim.Convolve`,
`drawImage`, and the survey coordinate mapping `get_image_coordinates`)
are modelled as function-valued fields: `Galaxy.render p sx sy x y` is
the pixel value produced at global pixel `(x, y)` when the galaxy model
transformed by the parameter dict `p` is shifted by `(sx, sy)` arcsec,
convolved with the survey PSF, and drawn.  Every application of this
drawing primitive is counted, so that "the rendering primitive was not
invoked" is expressible as `calls = 0`.  Raising `SourceNotVisible` is
modelled as a dedicated outcome constructor, tagged with the checkpoint
at which the source raises it (lines 161, 198 and 216 of render.py).
Images are functions `ℤ → ℤ → ℚ` paired with the integer bounds of the
pixel region they are defined on (galsim images carry their bounds the
same way); in-place mutation of the survey accumulator image and of the
cached renderer stamp is modelled by returning the updated values.
-/

/-- Integer pixel rectangle with inclusive bounds, as `galsim.BoundsI`. -/
structure BoundsI where
  xmin : ℤ
  xmax : ℤ
  ymin : ℤ
  ymax : ℤ
deriving DecidableEq

/-- galsim bounds intersection (`bounds1 & bounds2`): componentwise
max of the lower corners and min of the upper corners. -/
def BoundsI.inter (a b : BoundsI) : BoundsI :=
  ⟨max a.xmin b.xmin, min a.xmax b.xmax, max a.ymin b.ymin, min a.ymax b.ymax⟩

/-- `galsim.BoundsI.area()`: the number of pixels in the rectangle, and
`0` when the bounds are undefined (empty intersection). -/
def BoundsI.area (b : BoundsI) : ℤ :=
  if b.xmin ≤ b.xmax ∧ b.ymin ≤ b.ymax then
    (b.xmax - b.xmin + 1) * (b.ymax - b.ymin + 1)
  else 0

/-- Membership of a pixel in a rectangle. -/
def BoundsI.contains (b : BoundsI) (x y : ℤ) : Bool :=
  decide (b.xmin ≤ x ∧ x ≤ b.xmax ∧ b.ymin ≤ y ∧ y ≤ b.ymax)

/-- The non-flux transform parameter dict `{dx,dy,ds,dg1,dg2}` used as the
cache key of `GalaxyRenderer.draw` (render.py line 70); `df` is
deliberately excluded from the key. -/
structure TParams where
  dx : ℚ
  dy : ℚ
  ds : ℚ
  dg1 : ℚ
  dg2 : ℚ
deriving DecidableEq

/-- The all-zero parameter dict `{'dx':0.,'dy':0.,'ds':0.,'dg1':0.,'dg2':0.}`
to which `last_parameters` is initialized (render.py line 40). -/
def TParams.zero : TParams := ⟨0, 0, 0, 0, 0⟩

/-- A pixel image: the bounds of its pixel region together with the pixel
values (meaningful on the bounds region), as a `galsim.Image`. -/
structure Image where
  bounds : BoundsI
  pix : ℤ → ℤ → ℚ

/-- A galaxy model.  `flux` is `galaxy.model.getFlux()`, `(centroid_x,
centroid_y)` is `galaxy.model.centroid()`.  `render p sx sy x y` bundles
the external collaborators `get_transformed_model(**p)` (the identity when
`p` is all zero), `.shift(dx=sx,dy=sy)`, `galsim.Convolve` with the survey
PSF and `drawImage` into a single function giving the drawn
pixel value at global pixel `(x, y)`. -/
structure Galaxy where
  flux : ℚ
  centroid_x : ℚ
  centroid_y : ℚ
  render : TParams → ℚ → ℚ → ℤ → ℤ → ℚ

/-- The survey collaborator (spec section 6): pixel scale, image
dimensions, mean sky level, the peak pixel value obtained by drawing the
PSF into a 1x1 stamp of area `pixel_scale^2` (render.py lines 114-116),
the mutable accumulator image, and `get_image_coordinates`. -/
structure Survey where
  pixel_scale : ℚ
  image_width : ℤ
  image_height : ℤ
  mean_sky_level : ℚ
  psf_peak : ℚ
  image : Image
  imageCoord : ℚ → ℚ → ℚ × ℚ

/-- State of a `GalaxyRenderer` (render.py lines 30-40): the galaxy, the
owned stamp copy, the zero mask captured from the reference stamp, the
stamp-center offsets in arcsec, and the cached parameter dict. -/
structure GalaxyRenderer where
  galaxy : Galaxy
  stamp : Image
  mask : ℤ → ℤ → Bool
  dx_arcsec : ℚ
  dy_arcsec : ℚ
  last_parameters : TParams

/-- `GalaxyRenderer.__init__` (render.py lines 30-40): copy the reference
stamp, record the zero mask `(stamp.array == 0)`, compute the offsets
`0.5*(bounds.min + bounds.max + 1 - image_dimension)*pixel_scale`, and
initialize `last_parameters` to the all-zero dict. -/
def GalaxyRenderer.init (galaxy : Galaxy) (stamp : Image) (survey : Survey) :
    GalaxyRenderer where
  galaxy := galaxy
  stamp := stamp
  mask := fun x y => decide (stamp.pix x y = 0)
  dx_arcsec :=
    ((stamp.bounds.xmin + stamp.bounds.xmax + 1 - survey.image_width : ℤ) : ℚ) *
      survey.pixel_scale / 2
  dy_arcsec :=
    ((stamp.bounds.ymin + stamp.bounds.ymax + 1 - survey.image_height : ℤ) : ℚ) *
      survey.pixel_scale / 2
  last_parameters := TParams.zero

/-- The pixel values that a cache miss of `draw` stores into the renderer
stamp (render.py lines 73-79): transform the model by `p`, shift by the
negated stamp-center offsets, convolve with the PSF, draw, then force
pixels flagged by the zero mask to zero. -/
def GalaxyRenderer.rendererImage (r : GalaxyRenderer) (p : TParams) :
    ℤ → ℤ → ℚ :=
  fun x y =>
    if r.mask x y then 0 else r.galaxy.render p (-r.dx_arcsec) (-r.dy_arcsec) x y

/-- `GalaxyRenderer.draw` (render.py lines 42-82).  Returns the drawn
image `(1+df)*stamp`, the renderer state after the call, and the number
of invocations of the drawing primitive made by the call (0 on a cache
hit, 1 on a cache miss). -/
def GalaxyRenderer.draw (r : GalaxyRenderer) (df : ℚ) (p : TParams) :
    Image × GalaxyRenderer × ℕ :=
  if p = r.last_parameters then
    (⟨r.stamp.bounds, fun x y => (1 + df) * r.stamp.pix x y⟩, r, 0)
  else
    (⟨r.stamp.bounds, fun x y => (1 + df) * r.rendererImage p x y⟩,
     { r with stamp := ⟨r.stamp.bounds, r.rendererImage p⟩, last_parameters := p },
     1)

/-- A sequence of `draw` calls applied in order, keeping the final
renderer state (the drawn images are returned to the caller and the
invocation counts are tracked elsewhere). -/
def drawSeq (r : GalaxyRenderer) : List (ℚ × TParams) → GalaxyRenderer
  | [] => r
  | c :: rest => drawSeq ((r.draw c.1 c.2).2.1) rest

theorem GalaxyRenderer.draw_hit (r : GalaxyRenderer) (df : ℚ) (p : TParams)
    (h : p = r.last_parameters) :
    r.draw df p = (⟨r.stamp.bounds, fun x y => (1 + df) * r.stamp.pix x y⟩, r, 0) := by
  simp [GalaxyRenderer.draw, h]

theorem GalaxyRenderer.draw_miss (r : GalaxyRenderer) (df : ℚ) (p : TParams)
    (h : p ≠ r.last_parameters) :
    r.draw df p =
      (⟨r.stamp.bounds, fun x y => (1 + df) * r.rendererImage p x y⟩,
       { r with stamp := ⟨r.stamp.bounds, r.rendererImage p⟩, last_parameters := p },
       1) := by
  simp [GalaxyRenderer.draw, h]

theorem GalaxyRenderer.rendererImage_update (r : GalaxyRenderer) (s : Image)
    (q p : TParams) :
    ({ r with stamp := s, last_parameters := q } : GalaxyRenderer).rendererImage p =
      r.rendererImage p := rfl

theorem GalaxyRenderer.draw_last (r : GalaxyRenderer) (df : ℚ) (p : TParams) :
    ((r.draw df p).2.1).last_parameters = p := by
  by_cases h : p = r.last_parameters
  · rw [GalaxyRenderer.draw_hit r df p h]; exact h.symm
  · rw [GalaxyRenderer.draw_miss r df p h]

theorem GalaxyRenderer.draw_calls (r : GalaxyRenderer) (df : ℚ) (p : TParams) :
    (r.draw df p).2.2 = if p = r.last_parameters then 0 else 1 := by
  by_cases h : p = r.last_parameters
  · rw [GalaxyRenderer.draw_hit r df p h, if_pos h]
  · rw [GalaxyRenderer.draw_miss r df p h, if_neg h]

theorem GalaxyRenderer.draw_mask (r : GalaxyRenderer) (df : ℚ) (p : TParams) :
    ((r.draw df p).2.1).mask = r.mask := by
  by_cases h : p = r.last_parameters
  · rw [GalaxyRenderer.draw_hit r df p h]
  · rw [GalaxyRenderer.draw_miss r df p h]

/-- The zero-flux invariant is preserved by a single `draw` call. -/
theorem GalaxyRenderer.draw_preserves_zero (r : GalaxyRenderer) (df : ℚ)
    (p : TParams) (hr : ∀ x y, r.mask x y = true → r.stamp.pix x y = 0) :
    ∀ x y, ((r.draw df p).2.1).mask x y = true →
      ((r.draw df p).2.1).stamp.pix x y = 0 := by
  intro x y
  by_cases h : p = r.last_parameters
  · rw [GalaxyRenderer.draw_hit r df p h]; exact hr x y
  · rw [GalaxyRenderer.draw_miss r df p h]
    intro hm
    simp only at hm
    simp [GalaxyRenderer.rendererImage, hm]

/-- One finite-difference pass of the loop at render.py lines 245-249:
`draw(+delta)` then `draw(-delta)` on the attached renderer, keeping the
difference image divided by `2*delta`, the final renderer state and the
total number of drawing-primitive invocations. -/
def variationLayers :
    GalaxyRenderer → List ((ℚ → TParams) × ℚ) → List Image × GalaxyRenderer × ℕ
  | r, [] => ([], r, 0)
  | r, v :: rest =>
    let d1 := r.draw 0 (v.1 v.2)
    let d2 := d1.2.1.draw 0 (v.1 (-v.2))
    let res := variationLayers d2.2.1 rest
    (⟨d1.1.bounds, fun x y => (d1.1.pix x y - d2.1.pix x y) / (2 * v.2)⟩ :: res.1,
     res.2.1,
     d1.2.2 + d2.2.2 + res.2.2)

/-- The parameter dicts passed to `draw` by the variation loop, in call
order. -/
def paramSeq : List ((ℚ → TParams) × ℚ) → List TParams
  | [] => []
  | v :: rest => v.1 v.2 :: v.1 (-v.2) :: paramSeq rest

/-- When every parameter dict of the variation loop differs from the one
cached just before it (so every `draw` is a cache miss), the produced
layers are the centered finite differences of the cache-miss images, and
the drawing primitive is invoked exactly twice per variation. -/
theorem variationLayers_spec (vars : List ((ℚ → TParams) × ℚ)) :
    ∀ r : GalaxyRenderer,
      List.Chain' (fun a b => b ≠ a) (r.last_parameters :: paramSeq vars) →
      (variationLayers r vars).1 =
        vars.map (fun v =>
          (⟨r.stamp.bounds, fun x y =>
            (r.rendererImage (v.1 v.2) x y - r.rendererImage (v.1 (-v.2)) x y) /
              (2 * v.2)⟩ : Image)) ∧
      (variationLayers r vars).2.2 = 2 * vars.length := by
  induction vars with
  | nil => intro r _; exact ⟨rfl, rfl⟩
  | cons v rest ih =>
    intro r hch
    rw [paramSeq, List.chain'_cons] at hch
    obtain ⟨h1, hch⟩ := hch
    rw [List.chain'_cons] at hch
    obtain ⟨h2, hch⟩ := hch
    have e1 := GalaxyRenderer.draw_miss r 0 (v.1 v.2) h1
    set r1 : GalaxyRenderer :=
      { r with stamp := ⟨r.stamp.bounds, r.rendererImage (v.1 v.2)⟩,
               last_parameters := v.1 v.2 } with hr1
    have h2' : v.1 (-v.2) ≠ r1.last_parameters := h2
    have e2 := GalaxyRenderer.draw_miss r1 0 (v.1 (-v.2)) h2'
    set r2 : GalaxyRenderer :=
      { r1 with stamp := ⟨r1.stamp.bounds, r1.rendererImage (v.1 (-v.2))⟩,
                last_parameters := v.1 (-v.2) } with hr2
    have hch2 : List.Chain' (fun a b => b ≠ a)
        (r2.last_parameters :: paramSeq rest) := hch
    have ihr := ih r2 hch2
    simp only [variationLayers, e1, e2]
    constructor
    · simp only [List.map_cons]
      congr 1
      · congr 1
        funext x y
        have hri : r1.rendererImage (v.1 (-v.2)) = r.rendererImage (v.1 (-v.2)) := rfl
        rw [hri]
        ring
      · rw [ihr.1]
        rfl
    · rw [ihr.2]
      simp only [List.length_cons]
      ring

theorem drawSeq_mask_inv (calls : List (ℚ × TParams)) :
    ∀ r : GalaxyRenderer,
      (drawSeq r calls).mask = r.mask ∧
      ((∀ x y, r.mask x y = true → r.stamp.pix x y = 0) →
        ∀ x y, (drawSeq r calls).mask x y = true →
          (drawSeq r calls).stamp.pix x y = 0) := by
  induction calls with
  | nil => intro r; exact ⟨rfl, fun hr => hr⟩
  | cons c rest ih =>
    intro r
    have h1 := (ih ((r.draw c.1 c.2).2.1)).1
    have h2 := (ih ((r.draw c.1 c.2).2.1)).2
    constructor
    · simpa [drawSeq, GalaxyRenderer.draw_mask] using h1
    · intro hr
      have hr' : ∀ x y, ((r.draw c.1 c.2).2.1).mask x y = true →
          ((r.draw c.1 c.2).2.1).stamp.pix x y = 0 :=
        GalaxyRenderer.draw_preserves_zero r c.1 c.2 hr
      simpa [drawSeq] using h2 hr'

/-- Checkpoint at which `render_galaxy` raises `SourceNotVisible`: the
flux pre-filter (render.py line 161), the empty-keep-mask check (line
198), or the empty-survey-overlap check (line 216).  The source raises
the same exception class at all three sites; the embedding tags the
site. -/
inductive RenderStage where
  | prefilter
  | threshold
  | overlap
deriving DecidableEq

/-- The data returned, the state mutated and the primitive invocations
made by a successful `render_galaxy` call: the datacube layers, the
`cropped_bounds` return value, the survey accumulator image after the
in-place addition, the Engine stamp buffer contents after the call, the
`GalaxyRenderer` attached to the galaxy (in its final state, after any
variation draws), and the number of drawing-primitive invocations. -/
structure RenderSuccess where
  datacube : List Image
  bounds : BoundsI
  image : Image
  stampAfter : Image
  renderer : GalaxyRenderer
  calls : ℕ

/-- Outcome of `render_galaxy`: either `SourceNotVisible` raised at one
of the three checkpoints (with the number of drawing-primitive
invocations made before raising), or success. -/
inductive RenderOutcome where
  | notVisible (stage : RenderStage) (calls : ℕ)
  | ok (s : RenderSuccess)

/-- Engine state (render.py lines 100-125).  `sky_noise` models
`math.sqrt(survey.mean_sky_level)` computed at construction; since square
roots are not rational-valued the field stores the computed value, and
theorems that depend on the claim-level characterization assume
`0 ≤ sky_noise ∧ sky_noise^2 = survey.mean_sky_level`, which determines
it uniquely.  `psf_dilution` is obtained by drawing the PSF into a 1x1
stamp (lines 114-116) and is exposed as the survey's `psf_peak`. -/
structure Engine where
  survey : Survey
  min_snr : ℚ
  truncate_radius : ℚ
  no_margin : Bool
  verbose_render : Bool
  sky_noise : ℚ

/-- `pixel_cut = min_snr * sky_noise` (render.py line 109). -/
def Engine.pixel_cut (e : Engine) : ℚ := e.min_snr * e.sky_noise

/-- `psf_dilution = psf_stamp.array[0]` after drawing the survey PSF into
a single pixel (render.py lines 114-116). -/
def Engine.psf_dilution (e : Engine) : ℚ := e.survey.psf_peak

/-- `padding = int(math.ceil(truncate_radius/pixel_scale - 0.5))`
(render.py line 118). -/
def Engine.padding (e : Engine) : ℤ :=
  ⌈e.truncate_radius / e.survey.pixel_scale - 1 / 2⌉

/-- The truncation mask at pixel offset `(i, j)` from the stamp center
(render.py lines 122-125): membership in the disk
`sqrt((i*scale)^2 + (j*scale)^2) <= truncate_radius`, stated without a
square root as `0 ≤ r ∧ (i*scale)^2 + (j*scale)^2 ≤ r^2`, which is
equivalent for every rational `r` since the root is nonnegative. -/
def Engine.truncation_mask (e : Engine) (i j : ℤ) : Bool :=
  decide (0 ≤ e.truncate_radius ∧
    ((i : ℚ) * e.survey.pixel_scale) ^ 2 + ((j : ℚ) * e.survey.pixel_scale) ^ 2 ≤
      e.truncate_radius ^ 2)

/-- The central pixel indices `(x_center_index, y_center_index)`: floor of
the survey image coordinates of the model centroid (render.py lines
165-171). -/
def Engine.centerIndex (e : Engine) (g : Galaxy) : ℤ × ℤ :=
  (⌊(e.survey.imageCoord g.centroid_x g.centroid_y).1⌋,
   ⌊(e.survey.imageCoord g.centroid_x g.centroid_y).2⌋)

/-- The stamp bounding box `x_min..x_max, y_min..y_max` = center index
± padding (render.py lines 174-177, 191). -/
def Engine.stampBounds (e : Engine) (g : Galaxy) : BoundsI :=
  ⟨(e.centerIndex g).1 - e.padding, (e.centerIndex g).1 + e.padding,
   (e.centerIndex g).2 - e.padding, (e.centerIndex g).2 + e.padding⟩

/-- The offsets `(dx_stamp_arcsec, dy_stamp_arcsec)` of the bounding-box
center from the image center,
`0.5*(min + max + 1 - full_dimension)*pixel_scale` (render.py lines
180-181). -/
def Engine.stampOffset (e : Engine) (g : Galaxy) : ℚ × ℚ :=
  ((((e.stampBounds g).xmin + (e.stampBounds g).xmax + 1 -
      e.survey.image_width : ℤ) : ℚ) * e.survey.pixel_scale / 2,
   (((e.stampBounds g).ymin + (e.stampBounds g).ymax + 1 -
      e.survey.image_height : ℤ) : ℚ) * e.survey.pixel_scale / 2)

/-- The nominal rendering of the galaxy into the Engine stamp buffer
(render.py lines 185-192): the untransformed model shifted by the
negated stamp offsets, convolved with the PSF and drawn, at global pixel
`(x, y)`.  One invocation of the drawing primitive. -/
def Engine.nominalStamp (e : Engine) (g : Galaxy) : ℤ → ℤ → ℚ :=
  g.render TParams.zero (-(e.stampOffset g).1) (-(e.stampOffset g).2)

/-- `keep_mask = (stamp.array * truncation_mask > pixel_cut)` (render.py
line 196): the truncation mask zeroes the value before the threshold
comparison. -/
def Engine.keepMask (e : Engine) (g : Galaxy) (x y : ℤ) : Bool :=
  decide ((if e.truncation_mask (x - (e.centerIndex g).1) (y - (e.centerIndex g).2)
      then e.nominalStamp g x y else 0) > e.pixel_cut)

/-- The set of stamp pixels passing `keep_mask`; `np.sum(keep_mask) == 0`
(render.py line 197) is emptiness of this set. -/
def Engine.keepCells (e : Engine) (g : Galaxy) : Finset (ℤ × ℤ) :=
  ((Finset.Icc (e.stampBounds g).xmin (e.stampBounds g).xmax) ×ˢ
   (Finset.Icc (e.stampBounds g).ymin (e.stampBounds g).ymax)).filter
    (fun c => e.keepMask g c.1 c.2 = true)

/-- The stamp buffer after `self.stamp.array[np.logical_not(keep_mask)]
= 0.` (render.py line 199). -/
def Engine.thresholdedStamp (e : Engine) (g : Galaxy) : ℤ → ℤ → ℚ :=
  fun x y => if e.keepMask g x y then e.nominalStamp g x y else 0

/-- `cropped_bounds` (render.py lines 202-210): the first/last columns
and rows whose keep-mask projection is nonzero.  `np.argmax` on the
(reversed) boolean projections returns the first/last `True` index when
one exists, i.e. the min/max of the kept columns and rows; when
`keep_mask` is all false (a state at which the source has already
raised), all four argmax calls return 0 and the crop is the full stamp
box. -/
def Engine.croppedBounds (e : Engine) (g : Galaxy) : BoundsI :=
  if h : (e.keepCells g).Nonempty then
    ⟨((e.keepCells g).image Prod.fst).min' (h.image Prod.fst),
     ((e.keepCells g).image Prod.fst).max' (h.image Prod.fst),
     ((e.keepCells g).image Prod.snd).min' (h.image Prod.snd),
     ((e.keepCells g).image Prod.snd).max' (h.image Prod.snd)⟩
  else e.stampBounds g

/-- `cropped_stamp = self.stamp[cropped_bounds]` (render.py line 211). -/
def Engine.croppedStampImage (e : Engine) (g : Galaxy) : Image :=
  ⟨e.croppedBounds g, e.thresholdedStamp g⟩

/-- The `GalaxyRenderer` attached to the galaxy (render.py line 220),
built from the cropped stamp. -/
def Engine.attachedRenderer (e : Engine) (g : Galaxy) : GalaxyRenderer :=
  GalaxyRenderer.init g (e.croppedStampImage g) e.survey

/-- The five parameter variations used for the finite-difference partial
derivative images (render.py lines 226-232), each as the function
injecting a delta into one slot of the parameter dict, paired with the
delta. -/
def Engine.variations (e : Engine) : List ((ℚ → TParams) × ℚ) :=
  [(fun v => ⟨v, 0, 0, 0, 0⟩, e.survey.pixel_scale / 3),
   (fun v => ⟨0, v, 0, 0, 0⟩, e.survey.pixel_scale / 3),
   (fun v => ⟨0, 0, v, 0, 0⟩, 1 / 20),
   (fun v => ⟨0, 0, 0, v, 0⟩, 3 / 100),
   (fun v => ⟨0, 0, 0, 0, v⟩, 3 / 100)]

/-- `Engine.render_galaxy` (render.py lines 139-259): flux pre-filter,
nominal rendering (one primitive invocation), threshold + truncation with
the empty-mask check, crop, survey-overlap check and in-place
accumulation, renderer attachment, and the finite-difference variation
loop unless `no_partials`. -/
def Engine.render_galaxy (e : Engine) (g : Galaxy) (no_partials : Bool) :
    RenderOutcome :=
  if g.flux * e.psf_dilution < e.pixel_cut then .notVisible .prefilter 0
  else if (e.keepCells g).Nonempty then
    if ((e.croppedBounds g).inter e.survey.image.bounds).area = 0 then
      .notVisible .overlap 1
    else
      if no_partials then
        .ok ⟨[e.croppedStampImage g], e.croppedBounds g,
             ⟨e.survey.image.bounds, fun x y =>
               e.survey.image.pix x y +
                 if ((e.croppedBounds g).inter e.survey.image.bounds).contains x y
                 then e.thresholdedStamp g x y else 0⟩,
             ⟨e.stampBounds g, e.thresholdedStamp g⟩,
             e.attachedRenderer g, 1⟩
      else
        .ok ⟨e.croppedStampImage g ::
               (variationLayers (e.attachedRenderer g) e.variations).1,
             e.croppedBounds g,
             ⟨e.survey.image.bounds, fun x y =>
               e.survey.image.pix x y +
                 if ((e.croppedBounds g).inter e.survey.image.bounds).contains x y
                 then e.thresholdedStamp g x y else 0⟩,
             ⟨e.stampBounds g, e.thresholdedStamp g⟩,
             (variationLayers (e.attachedRenderer g) e.variations).2.1,
             1 + (variationLayers (e.attachedRenderer g) e.variations).2.2⟩
  else .notVisible .threshold 1

/-- C2: for every galaxy with `galaxy.flux * psf_dilution < pixel_cut`
(with `pixel_cut = min_snr * sqrt(mean_sky_level)` characterized by the
`hsky` hypothesis), `render_galaxy` raises `SourceNotVisible` at the
pre-filter checkpoint, before invoking the optical rendering primitive
(zero invocations) and before any other computation on the galaxy. -/
theorem render_galaxy_prefilter (e : Engine) (g : Galaxy) (np : Bool)
    (hsky : 0 ≤ e.sky_noise ∧ e.sky_noise ^ 2 = e.survey.mean_sky_level)
    (h : g.flux * e.psf_dilution < e.pixel_cut) :
    e.render_galaxy g np = .notVisible .prefilter 0 := by
  simp [Engine.render_galaxy, h]

/-- C9: two Engines constructed with identical survey, `min_snr`,
`truncate_radius` and `verbose_render` (hence identical `sky_noise`,
which the source derives deterministically from the survey's mean sky
level) but opposite `no_margin` values produce identical `render_galaxy`
outcomes, including the survey-image mutation: `no_margin` is stored at
construction and never read. -/
theorem render_galaxy_no_margin_independent (e₁ e₂ : Engine) (g : Galaxy)
    (np : Bool) (h1 : e₁.survey = e₂.survey) (h2 : e₁.min_snr = e₂.min_snr)
    (h3 : e₁.truncate_radius = e₂.truncate_radius)
    (h4 : e₁.verbose_render = e₂.verbose_render)
    (h5 : e₁.sky_noise = e₂.sky_noise) :
    e₁.render_galaxy g np = e₂.render_galaxy g np := by
  obtain ⟨s₁, m₁, t₁, nm₁, v₁, k₁⟩ := e₁
  obtain ⟨s₂, m₂, t₂, nm₂, v₂, k₂⟩ := e₂
  simp only at h1 h2 h3 h4 h5
  subst h1; subst h2; subst h3; subst h4; subst h5
  have q1 : Engine.pixel_cut ⟨s₁, m₁, t₁, nm₁, v₁, k₁⟩ =
    Engine.pixel_cut ⟨s₁, m₁, t₁, nm₂, v₁, k₁⟩ := rfl
  have q2 : Engine.psf_dilution ⟨s₁, m₁, t₁, nm₁, v₁, k₁⟩ =
    Engine.psf_dilution ⟨s₁, m₁, t₁, nm₂, v₁, k₁⟩ := rfl
  have q3 : Engine.keepCells ⟨s₁, m₁, t₁, nm₁, v₁, k₁⟩ g =
    Engine.keepCells ⟨s₁, m₁, t₁, nm₂, v₁, k₁⟩ g := rfl
  have q4 : Engine.croppedBounds ⟨s₁, m₁, t₁, nm₁, v₁, k₁⟩ g =
    Engine.croppedBounds ⟨s₁, m₁, t₁, nm₂, v₁, k₁⟩ g := rfl
  have q5 : Engine.croppedStampImage ⟨s₁, m₁, t₁, nm₁, v₁, k₁⟩ g =
    Engine.croppedStampImage ⟨s₁, m₁, t₁, nm₂, v₁, k₁⟩ g := rfl
  have q6 : Engine.thresholdedStamp ⟨s₁, m₁, t₁, nm₁, v₁, k₁⟩ g =
    Engine.thresholdedStamp ⟨s₁, m₁, t₁, nm₂, v₁, k₁⟩ g := rfl
  have q7 : Engine.stampBounds ⟨s₁, m₁, t₁, nm₁, v₁, k₁⟩ g =
    Engine.stampBounds ⟨s₁, m₁, t₁, nm₂, v₁, k₁⟩ g := rfl
  have q8 : Engine.attachedRenderer ⟨s₁, m₁, t₁, nm₁, v₁, k₁⟩ g =
    Engine.attachedRenderer ⟨s₁, m₁, t₁, nm₂, v₁, k₁⟩ g := rfl
  have q9 : Engine.variations ⟨s₁, m₁, t₁, nm₁, v₁, k₁⟩ =
    Engine.variations ⟨s₁, m₁, t₁, nm₂, v₁, k₁⟩ := rfl
  simp only [Engine.render_galaxy, q1, q2, q3, q4, q5, q6, q7, q8, q9]

/-- C10: on a freshly constructed `GalaxyRenderer`, a first `draw` whose
`dx,dy,ds,dg1,dg2` are all zero is a cache hit (because
`last_parameters` is initialized to the all-zero dict): it returns
`(1+df)` times the stamp stored at construction and makes zero
invocations of the transform/convolve/render primitives. -/
theorem first_draw_zero_cache_hit (g : Galaxy) (st : Image) (sv : Survey)
    (df : ℚ) :
    (GalaxyRenderer.init g st sv).draw df TParams.zero =
      (⟨st.bounds, fun x y => (1 + df) * st.pix x y⟩,
       GalaxyRenderer.init g st sv, 0) :=
  GalaxyRenderer.draw_hit _ df TParams.zero rfl

/-- C7: `draw` returns `(1+df)` times the (possibly just recomputed)
cached stamp; a repeated call with the same non-`df` parameters leaves
the cached state unchanged (the returned image is a fresh scaled value,
not the cache itself); and `draw` with `df = 1` is pixel-wise twice
`draw` with `df = 0`. -/
theorem draw_flux_rescale (r : GalaxyRenderer) (df df' : ℚ) (p : TParams) :
    (r.draw df p).1 =
      ⟨r.stamp.bounds, fun x y => (1 + df) * ((r.draw df p).2.1).stamp.pix x y⟩ ∧
    (((r.draw df p).2.1).draw df' p).2.1 = (r.draw df p).2.1 ∧
    ∀ x y, (r.draw 1 p).1.pix x y = 2 * (r.draw 0 p).1.pix x y := by
  refine ⟨?_, ?_, ?_⟩
  · by_cases h : p = r.last_parameters
    · rw [GalaxyRenderer.draw_hit r df p h]
    · rw [GalaxyRenderer.draw_miss r df p h]
  · have hl : p = ((r.draw df p).2.1).last_parameters :=
      (GalaxyRenderer.draw_last r df p).symm
    rw [GalaxyRenderer.draw_hit _ df' p hl]
  · intro x y
    by_cases h : p = r.last_parameters
    · rw [GalaxyRenderer.draw_hit r 1 p h, GalaxyRenderer.draw_hit r 0 p h]
      show (1 + 1) * r.stamp.pix x y = 2 * ((1 + 0) * r.stamp.pix x y)
      ring
    · rw [GalaxyRenderer.draw_miss r 1 p h, GalaxyRenderer.draw_miss r 0 p h]
      show (1 + 1) * r.rendererImage p x y = 2 * ((1 + 0) * r.rendererImage p x y)
      ring

/-- C6 (amended): two consecutive `draw` calls with identical
`dx,dy,ds,dg1,dg2` (the `df` values may differ) invoke the
transform/convolve/render primitives at most once in total: exactly once
when the tuple differs from the currently cached parameter set and zero
times when it already matches it; the second call is always a pure cache
hit that performs no invocation and leaves the renderer state (cached
stamp and cached parameter set) unchanged. -/
theorem draw_cache_at_most_one_invocation (r : GalaxyRenderer) (df df' : ℚ)
    (p : TParams) :
    (r.draw df p).2.2 + (((r.draw df p).2.1).draw df' p).2.2 =
      (if p = r.last_parameters then 0 else 1) ∧
    (((r.draw df p).2.1).draw df' p).2.2 = 0 ∧
    (((r.draw df p).2.1).draw df' p).2.1 = (r.draw df p).2.1 := by
  have hl : p = ((r.draw df p).2.1).last_parameters :=
    (GalaxyRenderer.draw_last r df p).symm
  have h2 := GalaxyRenderer.draw_hit _ df' p hl
  refine ⟨?_, ?_, ?_⟩
  · rw [h2]
    simp [GalaxyRenderer.draw_calls]
  · rw [h2]
  · rw [h2]

/-- Concrete galaxy used for the C6 counterexample and small witnesses. -/
def cexGalaxy : Galaxy := ⟨1, 0, 0, fun _ _ _ _ _ => 1⟩

/-- Concrete reference stamp with no zero pixel. -/
def cexStamp : Image := ⟨⟨1, 2, 1, 2⟩, fun _ _ => 1⟩

/-- Concrete survey for the C6 counterexample. -/
def cexSurvey : Survey :=
  ⟨1, 4, 4, 1, 1, ⟨⟨1, 4, 1, 4⟩, fun _ _ => 0⟩, fun a b => (a, b)⟩

/-- A freshly constructed renderer (its cached parameter set is the
all-zero dict). -/
def cexRenderer : GalaxyRenderer :=
  GalaxyRenderer.init cexGalaxy cexStamp cexSurvey

/-- C6 (counterexample): on a freshly constructed renderer, two
consecutive `draw` calls with the all-zero parameter tuple make zero
invocations of the rendering primitives in total, not exactly one as the
claim states for every renderer and every tuple (the first call is
already a cache hit against the initialized parameter dict). -/
theorem draw_cache_single_invocation_cex :
    (cexRenderer.draw 0 TParams.zero).2.2 +
      (((cexRenderer.draw 0 TParams.zero).2.1).draw 0 TParams.zero).2.2 = 0 ∧
    ¬((cexRenderer.draw 0 TParams.zero).2.2 +
      (((cexRenderer.draw 0 TParams.zero).2.1).draw 0 TParams.zero).2.2 = 1) := by
  constructor <;> decide

/-- C8: for a renderer constructed from a reference stamp, after any
sequence of `draw` calls the zero mask is still the one captured at
construction, and the cached stamp is zero at every cell of that initial
mask. -/
theorem galaxyRenderer_mask_invariant (g : Galaxy) (st : Image) (sv : Survey)
    (calls : List (ℚ × TParams)) :
    (drawSeq (GalaxyRenderer.init g st sv) calls).mask =
      (GalaxyRenderer.init g st sv).mask ∧
    ∀ x y, (GalaxyRenderer.init g st sv).mask x y = true →
      (drawSeq (GalaxyRenderer.init g st sv) calls).stamp.pix x y = 0 := by
  have h := drawSeq_mask_inv calls (GalaxyRenderer.init g st sv)
  refine ⟨h.1, fun x y hm => ?_⟩
  have h0 : ∀ x y, (GalaxyRenderer.init g st sv).mask x y = true →
      (GalaxyRenderer.init g st sv).stamp.pix x y = 0 := by
    intro x y hxy
    exact of_decide_eq_true hxy
  exact h.2 h0 x y (by rw [h.1]; exact hm)

theorem BoundsI.area_eq_zero_iff (b : BoundsI) :
    b.area = 0 ↔ b.xmax < b.xmin ∨ b.ymax < b.ymin := by
  unfold BoundsI.area
  by_cases h : b.xmin ≤ b.xmax ∧ b.ymin ≤ b.ymax
  · rw [if_pos h]
    constructor
    · intro h0
      rcases mul_eq_zero.mp h0 with h1 | h1 <;> omega
    · intro h0
      exfalso; omega
  · rw [if_neg h]
    constructor
    · intro _
      by_contra hc
      push_neg at hc
      exact h (by omega)
    · intro _; rfl

/-- If `a` is a sub-rectangle of `b` and `b` misses `c`, then `a` misses
`c`. -/
theorem BoundsI.area_zero_of_sub (a b c : BoundsI) (hx1 : b.xmin ≤ a.xmin)
    (hx2 : a.xmax ≤ b.xmax) (hy1 : b.ymin ≤ a.ymin) (hy2 : a.ymax ≤ b.ymax)
    (h : (b.inter c).area = 0) : (a.inter c).area = 0 := by
  rw [BoundsI.area_eq_zero_iff] at h ⊢
  simp only [BoundsI.inter] at h ⊢
  omega

theorem Engine.mem_keepCells (e : Engine) (g : Galaxy) (c : ℤ × ℤ) :
    c ∈ e.keepCells g ↔
      ((e.stampBounds g).xmin ≤ c.1 ∧ c.1 ≤ (e.stampBounds g).xmax) ∧
      ((e.stampBounds g).ymin ≤ c.2 ∧ c.2 ≤ (e.stampBounds g).ymax) ∧
      e.keepMask g c.1 c.2 = true := by
  simp [Engine.keepCells, Finset.mem_filter, Finset.mem_product, Finset.mem_Icc,
    and_assoc]

theorem Engine.croppedBounds_subset (e : Engine) (g : Galaxy)
    (h : (e.keepCells g).Nonempty) :
    ∀ c ∈ e.keepCells g,
      (e.croppedBounds g).xmin ≤ c.1 ∧ c.1 ≤ (e.croppedBounds g).xmax ∧
      (e.croppedBounds g).ymin ≤ c.2 ∧ c.2 ≤ (e.croppedBounds g).ymax := by
  intro c hc
  rw [Engine.croppedBounds, dif_pos h]
  exact ⟨Finset.min'_le _ _ (Finset.mem_image_of_mem Prod.fst hc),
         Finset.le_max' _ _ (Finset.mem_image_of_mem Prod.fst hc),
         Finset.min'_le _ _ (Finset.mem_image_of_mem Prod.snd hc),
         Finset.le_max' _ _ (Finset.mem_image_of_mem Prod.snd hc)⟩

theorem Engine.croppedBounds_edges (e : Engine) (g : Galaxy)
    (h : (e.keepCells g).Nonempty) :
    (∃ c ∈ e.keepCells g, c.1 = (e.croppedBounds g).xmin) ∧
    (∃ c ∈ e.keepCells g, c.1 = (e.croppedBounds g).xmax) ∧
    (∃ c ∈ e.keepCells g, c.2 = (e.croppedBounds g).ymin) ∧
    (∃ c ∈ e.keepCells g, c.2 = (e.croppedBounds g).ymax) := by
  rw [Engine.croppedBounds, dif_pos h]
  refine ⟨?_, ?_, ?_, ?_⟩
  · have hm := Finset.min'_mem ((e.keepCells g).image Prod.fst) (h.image Prod.fst)
    rw [Finset.mem_image] at hm
    obtain ⟨c, hc, hce⟩ := hm
    exact ⟨c, hc, hce.symm.symm⟩
  · have hm := Finset.max'_mem ((e.keepCells g).image Prod.fst) (h.image Prod.fst)
    rw [Finset.mem_image] at hm
    obtain ⟨c, hc, hce⟩ := hm
    exact ⟨c, hc, hce⟩
  · have hm := Finset.min'_mem ((e.keepCells g).image Prod.snd) (h.image Prod.snd)
    rw [Finset.mem_image] at hm
    obtain ⟨c, hc, hce⟩ := hm
    exact ⟨c, hc, hce⟩
  · have hm := Finset.max'_mem ((e.keepCells g).image Prod.snd) (h.image Prod.snd)
    rw [Finset.mem_image] at hm
    obtain ⟨c, hc, hce⟩ := hm
    exact ⟨c, hc, hce⟩

/-- What a successful `render_galaxy` run determines: the guards that
must have passed and the returned/mutated data, expressed with the
pipeline-stage definitions. -/
theorem Engine.render_ok_inv (e : Engine) (g : Galaxy) (np : Bool)
    (s : RenderSuccess) (h : e.render_galaxy g np = .ok s) :
    s.bounds = e.croppedBounds g ∧
    s.stampAfter = ⟨e.stampBounds g, e.thresholdedStamp g⟩ ∧
    s.image = ⟨e.survey.image.bounds, fun x y =>
      e.survey.image.pix x y +
        if ((e.croppedBounds g).inter e.survey.image.bounds).contains x y
        then e.thresholdedStamp g x y else 0⟩ ∧
    (e.keepCells g).Nonempty ∧
    ((e.croppedBounds g).inter e.survey.image.bounds).area ≠ 0 ∧
    ¬(g.flux * e.psf_dilution < e.pixel_cut) ∧
    s.datacube = (if np then [e.croppedStampImage g]
      else e.croppedStampImage g ::
        (variationLayers (e.attachedRenderer g) e.variations).1) := by
  by_cases h1 : g.flux * e.psf_dilution < e.pixel_cut
  · rw [Engine.render_galaxy, if_pos h1] at h
    exact absurd h (by simp)
  rw [Engine.render_galaxy, if_neg h1] at h
  by_cases h2 : (e.keepCells g).Nonempty
  · rw [if_pos h2] at h
    by_cases h3 : ((e.croppedBounds g).inter e.survey.image.bounds).area = 0
    · rw [if_pos h3] at h
      exact absurd h (by simp)
    · rw [if_neg h3] at h
      cases np
      · rw [if_neg (by simp)] at h
        rw [RenderOutcome.ok.injEq] at h
        subst h
        exact ⟨rfl, rfl, rfl, h2, h3, h1, by simp⟩
      · rw [if_pos rfl] at h
        rw [RenderOutcome.ok.injEq] at h
        subst h
        exact ⟨rfl, rfl, rfl, h2, h3, h1, by simp⟩
  · rw [if_neg h2] at h
    exact absurd h (by simp)

/-- C3: given that the flux pre-filter passed, `keep_mask` is exactly
`(rendered stamp value * truncation_mask) > pixel_cut`; `render_galaxy`
raises `SourceNotVisible` at the threshold checkpoint (before the
overlap check) if and only if `keep_mask` has no true cell; and on
success every stamp pixel outside `keep_mask` (below threshold or
outside the truncation radius) has been zeroed in the stamp buffer. -/
theorem render_galaxy_threshold_mask (e : Engine) (g : Galaxy) (np : Bool)
    (hpre : ¬(g.flux * e.psf_dilution < e.pixel_cut)) :
    (∀ x y, e.keepMask g x y =
      decide (e.nominalStamp g x y *
        (if e.truncation_mask (x - (e.centerIndex g).1) (y - (e.centerIndex g).2)
         then 1 else 0) > e.pixel_cut)) ∧
    (e.render_galaxy g np = .notVisible .threshold 1 ↔ e.keepCells g = ∅) ∧
    (∀ s, e.render_galaxy g np = .ok s →
      ∀ x y, e.keepMask g x y = false → s.stampAfter.pix x y = 0) := by
  refine ⟨?_, ?_, ?_⟩
  · intro x y
    cases h : e.truncation_mask (x - (e.centerIndex g).1) (y - (e.centerIndex g).2) <;>
      simp [Engine.keepMask, h]
  · by_cases hk : (e.keepCells g).Nonempty
    · have hne : e.keepCells g ≠ ∅ := Finset.nonempty_iff_ne_empty.mp hk
      simp only [Engine.render_galaxy, if_neg hpre, if_pos hk]
      by_cases ha : ((e.croppedBounds g).inter e.survey.image.bounds).area = 0
      · rw [if_pos ha]
        simp [hne]
      · rw [if_neg ha]
        cases np <;> simp [hne]
    · have he : e.keepCells g = ∅ := Finset.not_nonempty_iff_eq_empty.mp hk
      simp [Engine.render_galaxy, if_neg hpre, hk, he]
  · intro s hs x y hm
    obtain ⟨-, hst, -⟩ := Engine.render_ok_inv e g np s hs
    rw [hst]
    simp [Engine.thresholdedStamp, hm]

/-- C4: given at least one pixel passes `keep_mask`, the returned
`cropped_bounds` is the tight bounding box of `keep_mask`: `render_galaxy`
returns exactly `croppedBounds` on success, every stamp pixel exceeding
`pixel_cut` inside the truncation disk lies within it, and each of its
four boundary edges carries at least one `keep_mask` pixel (no boundary
row or column is entirely below threshold). -/
theorem render_galaxy_cropped_bounds_tight (e : Engine) (g : Galaxy)
    (h : (e.keepCells g).Nonempty) :
    (∀ np s, e.render_galaxy g np = .ok s → s.bounds = e.croppedBounds g) ∧
    (∀ x y, (e.stampBounds g).contains x y = true → e.keepMask g x y = true →
      (e.croppedBounds g).contains x y = true) ∧
    (∃ y, e.keepMask g (e.croppedBounds g).xmin y = true) ∧
    (∃ y, e.keepMask g (e.croppedBounds g).xmax y = true) ∧
    (∃ x, e.keepMask g x (e.croppedBounds g).ymin = true) ∧
    (∃ x, e.keepMask g x (e.croppedBounds g).ymax = true) := by
  obtain ⟨⟨c1, hc1, he1⟩, ⟨c2, hc2, he2⟩, ⟨c3, hc3, he3⟩, ⟨c4, hc4, he4⟩⟩ :=
    Engine.croppedBounds_edges e g h
  refine ⟨?_, ?_, ?_, ?_, ?_, ?_⟩
  · intro np s hs
    exact (Engine.render_ok_inv e g np s hs).1
  · intro x y hin hkm
    have hb := of_decide_eq_true hin
    have hc : (x, y) ∈ e.keepCells g := by
      rw [Engine.mem_keepCells]
      exact ⟨⟨hb.1, hb.2.1⟩, ⟨hb.2.2.1, hb.2.2.2⟩, hkm⟩
    have hsub := Engine.croppedBounds_subset e g h (x, y) hc
    simp only [BoundsI.contains]
    exact decide_eq_true ⟨hsub.1, hsub.2.1, hsub.2.2.1, hsub.2.2.2⟩
  · exact ⟨c1.2, by rw [← he1]; exact ((Engine.mem_keepCells e g c1).mp hc1).2.2⟩
  · exact ⟨c2.2, by rw [← he2]; exact ((Engine.mem_keepCells e g c2).mp hc2).2.2⟩
  · exact ⟨c3.1, by rw [← he3]; exact ((Engine.mem_keepCells e g c3).mp hc3).2.2⟩
  · exact ⟨c4.1, by rw [← he4]; exact ((Engine.mem_keepCells e g c4).mp hc4).2.2⟩

/-- C5: once the pre-filter and the threshold check have passed, an empty
intersection of `cropped_bounds` with the survey image bounds raises
`SourceNotVisible` at the overlap checkpoint; otherwise `render_galaxy`
succeeds, adding exactly the overlap region of the cropped (thresholded)
stamp into the survey accumulator image and dropping out-of-field pixels
silently.  Every successful call therefore returns bounds with nonempty
survey overlap, and a galaxy whose full stamp bounding box misses the
survey image can never succeed. -/
theorem render_galaxy_overlap_accumulate (e : Engine) (g : Galaxy) (np : Bool) :
    (¬(g.flux * e.psf_dilution < e.pixel_cut) → (e.keepCells g).Nonempty →
      ((((e.croppedBounds g).inter e.survey.image.bounds).area = 0 →
        e.render_galaxy g np = .notVisible .overlap 1) ∧
      (((e.croppedBounds g).inter e.survey.image.bounds).area ≠ 0 →
        ∃ s, e.render_galaxy g np = .ok s ∧ s.bounds = e.croppedBounds g ∧
          s.image.bounds = e.survey.image.bounds ∧
          ∀ x y, s.image.pix x y = e.survey.image.pix x y +
            (if ((e.croppedBounds g).inter e.survey.image.bounds).contains x y
             then e.thresholdedStamp g x y else 0)))) ∧
    (∀ s, e.render_galaxy g np = .ok s →
      (s.bounds.inter e.survey.image.bounds).area ≠ 0) ∧
    (((e.stampBounds g).inter e.survey.image.bounds).area = 0 →
      ∀ s, e.render_galaxy g np ≠ .ok s) := by
  refine ⟨fun hpre hk => ⟨?_, ?_⟩, ?_, ?_⟩
  · intro ha
    rw [Engine.render_galaxy, if_neg hpre, if_pos hk, if_pos ha]
  · intro ha
    rw [Engine.render_galaxy, if_neg hpre, if_pos hk, if_neg ha]
    cases np
    · rw [if_neg (by simp)]
      exact ⟨_, rfl, rfl, rfl, fun x y => rfl⟩
    · rw [if_pos rfl]
      exact ⟨_, rfl, rfl, rfl, fun x y => rfl⟩
  · intro s hs
    obtain ⟨hb, -, -, -, ha, -⟩ := Engine.render_ok_inv e g np s hs
    rw [hb]
    exact ha
  · intro h0 s hs
    obtain ⟨-, -, -, hk, ha, -⟩ := Engine.render_ok_inv e g np s hs
    obtain ⟨⟨c1, hc1, he1⟩, ⟨c2, hc2, he2⟩, ⟨c3, hc3, he3⟩, ⟨c4, hc4, he4⟩⟩ :=
      Engine.croppedBounds_edges e g hk
    have m1 := (Engine.mem_keepCells e g c1).mp hc1
    have m2 := (Engine.mem_keepCells e g c2).mp hc2
    have m3 := (Engine.mem_keepCells e g c3).mp hc3
    have m4 := (Engine.mem_keepCells e g c4).mp hc4
    exact ha (BoundsI.area_zero_of_sub _ _ _ (he1 ▸ m1.1.1) (he2 ▸ m2.1.2)
      (he3 ▸ m3.2.1.1) (he4 ▸ m4.2.1.2) h0)

/-- The finite-difference layer computed for variation `v` (render.py
lines 245-249), expressed with the cache-miss image of the renderer that
render_galaxy attaches at line 220: `(draw(+delta) - draw(-delta)) /
(2*delta)` with all other transform parameters zero and `df = 0` (a
`draw` call with parameters differing from the cached dict returns
exactly `(1+df)` times this image, see `GalaxyRenderer.draw_miss`). -/
def Engine.derivLayer (e : Engine) (g : Galaxy) (v : (ℚ → TParams) × ℚ) :
    Image :=
  ⟨e.croppedBounds g, fun x y =>
    ((e.attachedRenderer g).rendererImage (v.1 v.2) x y -
     (e.attachedRenderer g).rendererImage (v.1 (-v.2)) x y) / (2 * v.2)⟩

/-- When the pixel scale is nonzero, each parameter dict passed by the
variation loop differs from the one cached just before it, so all ten
`draw` calls are cache misses. -/
theorem Engine.variations_chain (e : Engine)
    (hps : e.survey.pixel_scale ≠ 0) :
    List.Chain' (fun a b => b ≠ a) (TParams.zero :: paramSeq e.variations) := by
  have h3 : e.survey.pixel_scale / 3 ≠ 0 := div_ne_zero hps (by norm_num)
  have h4 : -(e.survey.pixel_scale / 3) ≠ e.survey.pixel_scale / 3 :=
    fun hc => h3 (by linarith)
  have h5 : (0 : ℚ) ≠ -(e.survey.pixel_scale / 3) := fun hc => h3 (by linarith)
  simp only [Engine.variations, paramSeq, List.chain'_cons, List.chain'_singleton]
  norm_num [TParams.zero, TParams.mk.injEq, h3, h4, h5]

/-- C1: whenever `render_galaxy` succeeds (pre-filter passed, some pixel
above threshold, nonempty survey overlap; nonzero pixel scale), the
returned stack has exactly 1 layer when `no_partials = True` and exactly
6 layers when `no_partials = False`; layer 0 is the cropped nominal
stamp, layers 1-5 are the centered finite differences
`(draw(+delta) - draw(-delta)) / (2*delta)` for the five variations
`(dx, pixel_scale/3), (dy, pixel_scale/3), (ds, 0.05), (dg1, 0.03),
(dg2, 0.03)` with all other transform parameters zero, and every layer
has the bounds of the cropped stamp. -/
theorem render_galaxy_datacube_layers (e : Engine) (g : Galaxy)
    (hpre : ¬(g.flux * e.psf_dilution < e.pixel_cut))
    (hk : (e.keepCells g).Nonempty)
    (ha : ((e.croppedBounds g).inter e.survey.image.bounds).area ≠ 0)
    (hps : e.survey.pixel_scale ≠ 0) :
    (∃ s, e.render_galaxy g true = .ok s ∧
      s.datacube = [e.croppedStampImage g] ∧ s.datacube.length = 1) ∧
    (∃ s, e.render_galaxy g false = .ok s ∧
      s.datacube = e.croppedStampImage g :: e.variations.map (e.derivLayer g) ∧
      s.datacube.length = 6 ∧
      ∀ l ∈ s.datacube, l.bounds = e.croppedBounds g) := by
  have hch : List.Chain' (fun a b => b ≠ a)
      ((e.attachedRenderer g).last_parameters :: paramSeq e.variations) :=
    e.variations_chain hps
  have hvl := variationLayers_spec e.variations (e.attachedRenderer g) hch
  constructor
  · have hrender : e.render_galaxy g true = .ok
        ⟨[e.croppedStampImage g], e.croppedBounds g,
         ⟨e.survey.image.bounds, fun x y =>
           e.survey.image.pix x y +
             if ((e.croppedBounds g).inter e.survey.image.bounds).contains x y
             then e.thresholdedStamp g x y else 0⟩,
         ⟨e.stampBounds g, e.thresholdedStamp g⟩,
         e.attachedRenderer g, 1⟩ := by
      rw [Engine.render_galaxy, if_neg hpre, if_pos hk, if_neg ha, if_pos rfl]
    exact ⟨_, hrender, rfl, rfl⟩
  · have hrender : e.render_galaxy g false = .ok
        ⟨e.croppedStampImage g ::
           (variationLayers (e.attachedRenderer g) e.variations).1,
         e.croppedBounds g,
         ⟨e.survey.image.bounds, fun x y =>
           e.survey.image.pix x y +
             if ((e.croppedBounds g).inter e.survey.image.bounds).contains x y
             then e.thresholdedStamp g x y else 0⟩,
         ⟨e.stampBounds g, e.thresholdedStamp g⟩,
         (variationLayers (e.attachedRenderer g) e.variations).2.1,
         1 + (variationLayers (e.attachedRenderer g) e.variations).2.2⟩ := by
      rw [Engine.render_galaxy, if_neg hpre, if_pos hk, if_neg ha,
        if_neg (by simp)]
    refine ⟨_, hrender, ?_, ?_, ?_⟩
    · show e.croppedStampImage g ::
          (variationLayers (e.attachedRenderer g) e.variations).1 =
        e.croppedStampImage g :: e.variations.map (e.derivLayer g)
      rw [hvl.1]
      rfl
    · show (e.croppedStampImage g ::
          (variationLayers (e.attachedRenderer g) e.variations).1).length = 6
      rw [hvl.1]
      simp [Engine.variations]
    · show ∀ l ∈ e.croppedStampImage g ::
          (variationLayers (e.attachedRenderer g) e.variations).1,
        l.bounds = e.croppedBounds g
      rw [hvl.1]
      intro l hl
      rcases List.mem_cons.mp hl with rfl | hl
      · rfl
      · rw [List.mem_map] at hl
        obtain ⟨v, _, rfl⟩ := hl
        rfl

section

attribute [local semireducible] Rat.mul Rat.add Rat.sub Rat.inv Rat.ofScientific

/-- Concrete survey for witnesses: pixel scale 1, a 10x10 image with
galsim bounds (1..10, 1..10), unit sky level, PSF peak 1/2. -/
def wSurvey : Survey :=
  ⟨1, 10, 10, 1, 1 / 2, ⟨⟨1, 10, 1, 10⟩, fun _ _ => 0⟩, fun a b => (a, b)⟩

/-- Concrete bright galaxy at centroid (5.2, 5.7) whose drawn image has a
bright pixel at (5,5), a fainter one at (4,5) and a sub-threshold floor
elsewhere, so that cropping is nontrivial. -/
def wGalaxy : Galaxy :=
  ⟨100, 26 / 5, 57 / 10, fun _ _ _ x y =>
    if x = 5 ∧ y = 5 then 10 else if x = 4 ∧ y = 5 then 3 else 1 / 2⟩

/-- Concrete engine: min_snr 1, truncate_radius 1.4 (padding 1, 3x3
stamp), no_margin false, sky_noise 1 = sqrt(1). -/
def wEngine : Engine := ⟨wSurvey, 1, 7 / 5, false, false, 1⟩

/-- The same engine with the opposite `no_margin` flag. -/
def wEngineMargin : Engine := ⟨wSurvey, 1, 7 / 5, true, false, 1⟩

/-- Concrete galaxy too faint to pass the flux pre-filter. -/
def faintGalaxy : Galaxy := ⟨1 / 1000, 26 / 5, 57 / 10, fun _ _ _ _ _ => 0⟩

/-- Concrete reference stamp with zero pixels outside (5,5). -/
def wStamp : Image := ⟨⟨4, 5, 5, 5⟩, fun x y => if x = 5 ∧ y = 5 then 10 else 0⟩

/-- C1 witness: the hypotheses of `render_galaxy_datacube_layers` hold
for the concrete bright galaxy and its conclusion follows at it. -/
theorem render_galaxy_datacube_layers_witness :
    ¬(wGalaxy.flux * wEngine.psf_dilution < wEngine.pixel_cut) ∧
    (wEngine.keepCells wGalaxy).Nonempty ∧
    ((wEngine.croppedBounds wGalaxy).inter wEngine.survey.image.bounds).area ≠ 0 ∧
    wEngine.survey.pixel_scale ≠ 0 ∧
    ((∃ s, wEngine.render_galaxy wGalaxy true = .ok s ∧
        s.datacube = [wEngine.croppedStampImage wGalaxy] ∧
        s.datacube.length = 1) ∧
     (∃ s, wEngine.render_galaxy wGalaxy false = .ok s ∧
        s.datacube = wEngine.croppedStampImage wGalaxy ::
          wEngine.variations.map (wEngine.derivLayer wGalaxy) ∧
        s.datacube.length = 6 ∧
        ∀ l ∈ s.datacube, l.bounds = wEngine.croppedBounds wGalaxy)) :=
  ⟨by decide, by decide, by decide, by decide,
   render_galaxy_datacube_layers wEngine wGalaxy (by decide) (by decide)
     (by decide) (by decide)⟩

/-- C2 witness: the faint galaxy satisfies the pre-filter hypothesis and
`render_galaxy` fails at the pre-filter stage with zero invocations. -/
theorem render_galaxy_prefilter_witness :
    (0 ≤ wEngine.sky_noise ∧
      wEngine.sky_noise ^ 2 = wEngine.survey.mean_sky_level) ∧
    faintGalaxy.flux * wEngine.psf_dilution < wEngine.pixel_cut ∧
    wEngine.render_galaxy faintGalaxy true = .notVisible .prefilter 0 :=
  ⟨by decide, by decide,
   render_galaxy_prefilter wEngine faintGalaxy true (by decide) (by decide)⟩

/-- C3 witness: instantiation of `render_galaxy_threshold_mask` at the
concrete bright galaxy. -/
theorem render_galaxy_threshold_mask_witness :
    ¬(wGalaxy.flux * wEngine.psf_dilution < wEngine.pixel_cut) ∧
    ((∀ x y, wEngine.keepMask wGalaxy x y =
      decide (wEngine.nominalStamp wGalaxy x y *
        (if wEngine.truncation_mask (x - (wEngine.centerIndex wGalaxy).1)
            (y - (wEngine.centerIndex wGalaxy).2)
         then 1 else 0) > wEngine.pixel_cut)) ∧
    (wEngine.render_galaxy wGalaxy true = .notVisible .threshold 1 ↔
      wEngine.keepCells wGalaxy = ∅) ∧
    (∀ s, wEngine.render_galaxy wGalaxy true = .ok s →
      ∀ x y, wEngine.keepMask wGalaxy x y = false → s.stampAfter.pix x y = 0)) :=
  ⟨by decide, render_galaxy_threshold_mask wEngine wGalaxy true (by decide)⟩

/-- C4 witness: instantiation of `render_galaxy_cropped_bounds_tight` at
the concrete bright galaxy (whose crop is the proper sub-box
(4..5, 5..5) of the 3x3 stamp). -/
theorem render_galaxy_cropped_bounds_tight_witness :
    (wEngine.keepCells wGalaxy).Nonempty ∧
    ((∀ np s, wEngine.render_galaxy wGalaxy np = .ok s →
        s.bounds = wEngine.croppedBounds wGalaxy) ∧
    (∀ x y, (wEngine.stampBounds wGalaxy).contains x y = true →
      wEngine.keepMask wGalaxy x y = true →
      (wEngine.croppedBounds wGalaxy).contains x y = true) ∧
    (∃ y, wEngine.keepMask wGalaxy (wEngine.croppedBounds wGalaxy).xmin y = true) ∧
    (∃ y, wEngine.keepMask wGalaxy (wEngine.croppedBounds wGalaxy).xmax y = true) ∧
    (∃ x, wEngine.keepMask wGalaxy x (wEngine.croppedBounds wGalaxy).ymin = true) ∧
    (∃ x, wEngine.keepMask wGalaxy x (wEngine.croppedBounds wGalaxy).ymax = true)) :=
  ⟨by decide, render_galaxy_cropped_bounds_tight wEngine wGalaxy (by decide)⟩

/-- C5 witness: instantiation of `render_galaxy_overlap_accumulate` at
the concrete bright galaxy. -/
theorem render_galaxy_overlap_accumulate_witness :
    (¬(wGalaxy.flux * wEngine.psf_dilution < wEngine.pixel_cut) →
      (wEngine.keepCells wGalaxy).Nonempty →
      ((((wEngine.croppedBounds wGalaxy).inter
          wEngine.survey.image.bounds).area = 0 →
        wEngine.render_galaxy wGalaxy true = .notVisible .overlap 1) ∧
      (((wEngine.croppedBounds wGalaxy).inter
          wEngine.survey.image.bounds).area ≠ 0 →
        ∃ s, wEngine.render_galaxy wGalaxy true = .ok s ∧
          s.bounds = wEngine.croppedBounds wGalaxy ∧
          s.image.bounds = wEngine.survey.image.bounds ∧
          ∀ x y, s.image.pix x y = wEngine.survey.image.pix x y +
            (if ((wEngine.croppedBounds wGalaxy).inter
                wEngine.survey.image.bounds).contains x y
             then wEngine.thresholdedStamp wGalaxy x y else 0)))) ∧
    (∀ s, wEngine.render_galaxy wGalaxy true = .ok s →
      (s.bounds.inter wEngine.survey.image.bounds).area ≠ 0) ∧
    (((wEngine.stampBounds wGalaxy).inter wEngine.survey.image.bounds).area = 0 →
      ∀ s, wEngine.render_galaxy wGalaxy true ≠ .ok s) :=
  render_galaxy_overlap_accumulate wEngine wGalaxy true

/-- C8 witness: instantiation of `galaxyRenderer_mask_invariant` at a
concrete renderer and a one-element call sequence. -/
theorem galaxyRenderer_mask_invariant_witness :
    (drawSeq (GalaxyRenderer.init wGalaxy wStamp wSurvey)
        [(0, ⟨1, 0, 0, 0, 0⟩)]).mask =
      (GalaxyRenderer.init wGalaxy wStamp wSurvey).mask ∧
    ∀ x y, (GalaxyRenderer.init wGalaxy wStamp wSurvey).mask x y = true →
      (drawSeq (GalaxyRenderer.init wGalaxy wStamp wSurvey)
        [(0, ⟨1, 0, 0, 0, 0⟩)]).stamp.pix x y = 0 :=
  galaxyRenderer_mask_invariant wGalaxy wStamp wSurvey [(0, ⟨1, 0, 0, 0, 0⟩)]

/-- C9 witness: the two concrete engines differ exactly in `no_margin`
and produce the same outcome. -/
theorem render_galaxy_no_margin_independent_witness :
    wEngine.survey = wEngineMargin.survey ∧
    wEngine.min_snr = wEngineMargin.min_snr ∧
    wEngine.truncate_radius = wEngineMargin.truncate_radius ∧
    wEngine.verbose_render = wEngineMargin.verbose_render ∧
    wEngine.sky_noise = wEngineMargin.sky_noise ∧
    wEngine.no_margin = false ∧ wEngineMargin.no_margin = true ∧
    wEngine.render_galaxy wGalaxy false = wEngineMargin.render_galaxy wGalaxy false :=
  ⟨rfl, rfl, rfl, rfl, rfl, rfl, rfl,
   render_galaxy_no_margin_independent wEngine wEngineMargin wGalaxy false
     rfl rfl rfl rfl rfl⟩

end
